import Mathlib

/-!
Shallow embedding of the client-side editing state machine of the IDE
repository: the tab/buffer manager (`editor.js` / part_004), the lazily
loaded file-tree explorer (`file_explorer.js` / part_001), and the
notification display (`app.js`).

The DOM is modelled only where it carries state the code reads back:
the textarea value (`editorValue`), the presence of a rendered
`file-tree-children` container per directory (`domChildren`), and the
`hidden` class of the notification element (`shown`).  Asynchronous
backend calls (`eel.load_file`, `eel.save_file`, `eel.list_directory`)
are modelled by passing the eventual response as an explicit argument to
the resolving code; issuing a request is recorded in the returned
request/notification lists.
-/

namespace IDE

/-- A notification event payload, as dispatched by `showNotification` in
`editor.js` (message plus a type string, "success" / "error" / "info"). -/
structure Notif where
  message : String
  ntype : String
deriving DecidableEq, Repr

/-- One entry of `editorState.openTabs` in `editor.js`:
`{path, name, modified, pinned}`. -/
structure Tab where
  path : String
  name : String
  modified : Bool
  pinned : Bool
deriving DecidableEq, Repr

/-- Placeholder tab used to total out JS array indexing
(`openTabs[newActiveIndex]`); every theorem below indexes inside bounds. -/
def dummyTab : Tab := ⟨"", "", false, false⟩

/-- The mutable `editorState` object of `editor.js`, restricted to the
fields the editing state machine reads or writes.  `editorValue` is the
value of the textarea DOM element (`editorState.editor.value`). -/
structure EditorState where
  currentFile : Option String
  content : String
  isModified : Bool
  isSaving : Bool
  editorValue : String
  openTabs : List Tab
  activeTab : Option String
deriving DecidableEq, Repr

/-- The initial `editorState` literal of `editor.js`. -/
def initEditorState : EditorState :=
  { currentFile := none, content := "", isModified := false,
    isSaving := false, editorValue := "", openTabs := [], activeTab := none }

/-- The eventual outcome of an `eel.load_file(path)` call: a success
response carries `result.path` and `result.content`; `failure` is a
response with `success: false` and an error string; `thrown` is a
rejected promise caught by the `catch` block. -/
inductive LoadResult where
  | success (path : String) (content : String)
  | failure (err : String)
  | thrown
deriving DecidableEq, Repr

/-- Split a character list at '/' separators, keeping empty segments,
the way JS `String.prototype.split('/')` does. -/
def splitSlash : List Char → List (List Char)
  | [] => [[]]
  | c :: rest =>
      let r := splitSlash rest
      if c = '/' then [] :: r
      else
        match r with
        | [] => [[c]]
        | h :: t => (c :: h) :: t

/-- `filePath.split('/').pop()` from `editor.js`: the last slash-separated
component of a path. -/
def lastName (filePath : String) : String :=
  String.mk ((splitSlash filePath.toList).getLastD [])

/-- `addOrActivateTab(filePath)` from `editor.js`: activate an existing
tab with this path, or push a fresh unpinned tab (named by the last
path component) at the end of `openTabs` and activate it. -/
def addOrActivateTab (s : EditorState) (filePath : String) : EditorState :=
  if s.openTabs.any (fun t => t.path == filePath) then
    { s with activeTab := some filePath }
  else
    let fileName := lastName filePath
    { s with
        openTabs := s.openTabs ++ [⟨filePath, fileName, false, false⟩],
        activeTab := some filePath }

/-- In-place mutation performed by `updateActiveTab` in `editor.js`:
`openTabs.find(tab => tab.path === activeTab)` followed by
`tab.modified = m` — the first tab whose path equals the active-tab
pointer gets its modified flag overwritten; no match means no change. -/
def setModifiedFirst (ts : List Tab) (p : Option String) (m : Bool) : List Tab :=
  match ts with
  | [] => []
  | t :: rest =>
      if some t.path = p then { t with modified := m } :: rest
      else t :: setModifiedFirst rest p m

/-- `updateActiveTab()` from `editor.js` (reached via `updateFileStatus`):
mirrors `editorState.isModified` into the modified flag of the tab whose
path is the current `activeTab`, then re-renders.  The breadcrumb update
of `updateFileStatus` and `renderTabs` are DOM-only. -/
def updateActiveTab (s : EditorState) : EditorState :=
  { s with openTabs := setModifiedFirst s.openTabs s.activeTab s.isModified }

/-- `loadFileContent(filePath, content)` from `editor.js`: commit the
loaded content to the buffer (currentFile, content, isModified := false,
textarea value), add-or-activate the tab, then `updateFileStatus()`
mirrors the now-false dirty flag into the active tab's modified flag.
Note: it commits unconditionally — there is no check of the active
selection. -/
def loadFileContent (s : EditorState) (filePath content : String) : EditorState :=
  updateActiveTab
    (addOrActivateTab
      { s with
          currentFile := some filePath,
          content := content,
          isModified := false,
          editorValue := content }
      filePath)

/-- Message of the failure branch of `loadFile`:
`result.error || 'Failed to load file'` (JS `||` falls back on the empty
string). -/
def loadErrMsg (err : String) : String :=
  if err.isEmpty then "Failed to load file" else err

/-- The resolution of `loadFile(filePath)` from `editor.js`, applied to
the state that holds when the backend response `resp` arrives.  On
success it commits via `loadFileContent(result.path, result.content)`
and emits a success notification; on failure or a thrown error the
state is untouched and an error notification is emitted. -/
def loadFile (s : EditorState) (filePath : String) (resp : LoadResult) :
    EditorState × List Notif :=
  match resp with
  | .success rp content =>
      (loadFileContent s rp content,
       [⟨"Opened " ++ lastName filePath, "success"⟩])
  | .failure err => (s, [⟨loadErrMsg err, "error"⟩])
  | .thrown => (s, [⟨"Failed to load file", "error"⟩])

/-- `clearEditor()` from `editor.js`: empties the textarea, resets
currentFile/content/isModified.  It does not touch `activeTab`. -/
def clearEditor (s : EditorState) : EditorState :=
  { s with
      editorValue := "",
      currentFile := none,
      content := "",
      isModified := false }

/-- `switchToTab(filePath)` from `editor.js`: a no-op when the path is
already the active tab, otherwise awaits `loadFile(filePath)` whose
response is `resp`. -/
def switchToTab (s : EditorState) (filePath : String) (resp : LoadResult) :
    EditorState × List Notif :=
  if some filePath = s.activeTab then (s, [])
  else loadFile s filePath resp

/-- `closeTab(filePath)` from `editor.js`: no-op on a missing or pinned
tab; otherwise splices the tab out, and if it was active either switches
to the tab at index `max(0, tabIndex - 1)` of the remaining list (the
triggered load's response is `resp`) or, when no tabs remain, clears the
editor. -/
def closeTab (s : EditorState) (filePath : String) (resp : LoadResult) :
    EditorState × List Notif :=
  match s.openTabs.findIdx? (fun t => t.path == filePath) with
  | none => (s, [])
  | some i =>
      let tab := s.openTabs.getD i dummyTab
      if tab.pinned then (s, [])
      else
        let tabs' := s.openTabs.eraseIdx i
        let s1 := { s with openTabs := tabs' }
        if s.activeTab = some filePath then
          if 0 < tabs'.length then
            switchToTab s1 ((tabs'.getD (i - 1) dummyTab).path) resp
          else (clearEditor s1, [])
        else (s1, [])

/-- The eventual outcome of an `eel.save_file(path, content)` call. -/
inductive SaveOutcome where
  | success
  | failure (err : String)
  | thrown
deriving DecidableEq, Repr

/-- Message of the failure branch of `saveCurrentFile`:
`result.error || 'Failed to save file'`. -/
def saveErrMsg (err : String) : String :=
  if err.isEmpty then "Failed to save file" else err

/-- Result of one invocation of `saveCurrentFile()`: the state after the
call completes, the returned boolean, the notifications emitted, and
whether a `save_file` request was actually issued to the backend. -/
structure SaveResult where
  state : EditorState
  ok : Bool
  notifs : List Notif
  requested : Bool
deriving DecidableEq, Repr

/-- `saveCurrentFile()` from `editor.js`, with the backend response `o`
passed explicitly.  Guards: no current file → error notification, return
false; `isSaving` already true → return false with no request.  Otherwise
`isSaving` is set for the duration of the call, the textarea content is
sent, and the `finally` block resets `isSaving := false` on every path
(success, backend failure, thrown error).  On success, `markAsSaved()`
clears the dirty flag and its `updateFileStatus()` call mirrors it into
the active tab's modified flag via `updateActiveTab`. -/
def saveCurrentFile (s : EditorState) (o : SaveOutcome) : SaveResult :=
  match s.currentFile with
  | none => ⟨s, false, [⟨"No file is currently open", "error"⟩], false⟩
  | some f =>
      if s.isSaving then ⟨s, false, [], false⟩
      else
        let content := s.editorValue
        match o with
        | .success =>
            ⟨updateActiveTab
               { s with content := content, isModified := false, isSaving := false },
             true,
             [⟨"Saved " ++ lastName f, "success"⟩], true⟩
        | .failure err =>
            ⟨{ s with isSaving := false }, false, [⟨saveErrMsg err, "error"⟩], true⟩
        | .thrown =>
            ⟨{ s with isSaving := false }, false, [⟨"Failed to save file", "error"⟩], true⟩

/-! ## File explorer (`file_explorer.js` / part_001)

`explorerState.expandedDirs` is the `Set` of expanded paths.
`domChildren` records which directory paths currently have a rendered
`file-tree-children` container in the DOM — the structure
`expandDirectory` probes (`dirElement.nextElementSibling`) to decide
between a cache hit and a fresh `list_directory` request, and the
structure `collapseDirectory` removes (`childContainer.remove()`).
The model covers directories whose tree item is rendered, and records
each issued `list_directory` request path. -/

/-- Explorer state: the expanded-paths set and the set of directory
paths that have a children container in the DOM. -/
structure ExplorerState where
  expandedDirs : List String
  domChildren : List String
deriving DecidableEq, Repr

/-- Initial `explorerState`: nothing expanded, nothing rendered. -/
def initExplorerState : ExplorerState := ⟨[], []⟩

/-- `Set.add`: insert a path if absent. -/
def setAdd (l : List String) (p : String) : List String :=
  if p ∈ l then l else l ++ [p]

/-- `expandDirectory(dirPath)` from `file_explorer.js`: adds the path to
`expandedDirs`; if a children container already exists it is merely made
visible (no service call), otherwise a fresh container is created and
`loadDirectory(dirPath, ...)` issues one `list_directory` request.
Returns the new state and the list of request paths issued. -/
def expandDirectory (s : ExplorerState) (dirPath : String) :
    ExplorerState × List String :=
  let expanded := setAdd s.expandedDirs dirPath
  if dirPath ∈ s.domChildren then
    ({ s with expandedDirs := expanded }, [])
  else
    ({ expandedDirs := expanded, domChildren := s.domChildren ++ [dirPath] },
     [dirPath])

/-- `collapseDirectory(dirPath)` from `file_explorer.js`: deletes the
path from `expandedDirs` and removes the children container from the
DOM (`childContainer.remove()`) — the fetched children are discarded. -/
def collapseDirectory (s : ExplorerState) (dirPath : String) : ExplorerState :=
  { expandedDirs := s.expandedDirs.filter (fun q => q ≠ dirPath),
    domChildren := s.domChildren.filter (fun q => q ≠ dirPath) }

/-- An expand or collapse user action on the explorer. -/
inductive EOp where
  | expand (p : String)
  | collapse (p : String)
deriving DecidableEq, Repr

/-- One explorer action: state transition plus requests issued. -/
def explorerStep (s : ExplorerState) (op : EOp) : ExplorerState × List String :=
  match op with
  | .expand p => expandDirectory s p
  | .collapse p => (collapseDirectory s p, [])

/-- Run a sequence of expand/collapse actions, accumulating every
`list_directory` request issued. -/
def runExplorer (s : ExplorerState) : List EOp → ExplorerState × List String
  | [] => (s, [])
  | op :: ops =>
      let (s1, reqs) := explorerStep s op
      let (s2, reqs') := runExplorer s1 ops
      (s2, reqs ++ reqs')

/-! ## Notification display (`app.js`, `showNotification`)

The notification DOM element shows one message; `showNotification`
replaces the text, removes the `hidden` class and schedules
`classList.add('hidden')` 3 time units later with `setTimeout`, without
cancelling any previously scheduled hide.  Time advances in unit ticks;
a pending hide scheduled at publish time `t` fires at `t + 3`. -/

/-- Notification element plus pending hide timers (absolute fire times). -/
structure NotifState where
  message : String
  ntype : String
  shown : Bool
  timers : List Nat
deriving DecidableEq, Repr

/-- Notification world: current time and element state. -/
structure NotifWorld where
  time : Nat
  state : NotifState
deriving DecidableEq, Repr

/-- Initial notification world: element hidden, no timers. -/
def initNotifWorld : NotifWorld := ⟨0, ⟨"", "", false, []⟩⟩

/-- `showNotification(message, type)` from `app.js`, invoked at the
current time: set the text, set the type class, remove `hidden`, and
schedule a hide at `now + 3`.  The previously scheduled hides are left
pending — the source stores no timer id and calls no `clearTimeout`. -/
def showNotification (w : NotifWorld) (message ntype : String) : NotifWorld :=
  { w with
      state := { message := message, ntype := ntype, shown := true,
                 timers := w.state.timers ++ [w.time + 3] } }

/-- Advance time by one unit; every pending hide whose fire time has
arrived adds the `hidden` class. -/
def notifTick (w : NotifWorld) : NotifWorld :=
  let t := w.time + 1
  let fired := w.state.timers.filter (fun e => e ≤ t)
  { time := t,
    state := { w.state with
                 shown := if fired.isEmpty then w.state.shown else false,
                 timers := w.state.timers.filter (fun e => ¬ e ≤ t) } }

/-- A notification-world event: a publish at the current instant, or one
unit of time passing. -/
inductive NEvent where
  | publish (message ntype : String)
  | tick
deriving DecidableEq, Repr

/-- Run a sequence of notification events from a world. -/
def runNotif (w : NotifWorld) : List NEvent → NotifWorld
  | [] => w
  | .publish m ty :: es => runNotif (showNotification w m ty) es
  | .tick :: es => runNotif (notifTick w) es

/-! ## Helper definitions and lemmas -/

/-- Number of tabs in a list carrying a given path. -/
def countPath (ts : List Tab) (p : String) : Nat :=
  (ts.filter (fun t => t.path == p)).length

theorem countPath_append (l1 l2 : List Tab) (p : String) :
    countPath (l1 ++ l2) p = countPath l1 p + countPath l2 p := by
  simp [countPath, List.filter_append]

theorem countPath_eq_zero_of_not_any (l : List Tab) (p : String)
    (h : l.any (fun t => t.path == p) = false) : countPath l p = 0 := by
  have hnil : l.filter (fun t => t.path == p) = [] := by
    rw [List.filter_eq_nil_iff]
    intro a ha hpa
    have : l.any (fun t => t.path == p) = true :=
      List.any_eq_true.mpr ⟨a, ha, hpa⟩
    rw [h] at this
    exact Bool.noConfusion this
  simp [countPath, hnil]

theorem findIdx?_some_lt {α : Type _} (p : α → Bool) :
    ∀ (l : List α) (i : Nat), l.findIdx? p = some i → i < l.length
  | [], i, h => by simp [List.findIdx?] at h
  | a :: l, i, h => by
      rw [List.findIdx?_cons] at h
      by_cases hpa : p a = true
      · simp [hpa] at h
        simp only [List.length_cons]
        omega
      · simp [hpa, List.findIdx?_succ] at h
        obtain ⟨j, hj, hij⟩ := h
        have := findIdx?_some_lt p l j hj
        simp only [List.length_cons]
        omega

theorem findIdx?_some_pred {α : Type _} (p : α → Bool) (d : α) :
    ∀ (l : List α) (i : Nat), l.findIdx? p = some i → p (l.getD i d) = true
  | [], i, h => by simp [List.findIdx?] at h
  | a :: l, i, h => by
      rw [List.findIdx?_cons] at h
      by_cases hpa : p a = true
      · simp [hpa] at h
        subst h
        simpa using hpa
      · simp [hpa, List.findIdx?_succ] at h
        obtain ⟨j, hj, hij⟩ := h
        subst hij
        simpa using findIdx?_some_pred p d l j hj

theorem findIdx?_isSome_of_mem {α : Type _} (p : α → Bool) :
    ∀ (l : List α) (a : α), a ∈ l → p a = true → ∃ i, l.findIdx? p = some i
  | [], a, ha, _ => absurd ha (List.not_mem_nil a)
  | x :: l, a, ha, hp => by
      rw [List.findIdx?_cons]
      by_cases hpx : p x = true
      · exact ⟨0, by simp [hpx]⟩
      · have hal : a ∈ l := by
          rcases List.mem_cons.mp ha with h | h
          · subst h; exact absurd hp hpx
          · exact h
        obtain ⟨j, hj⟩ := findIdx?_isSome_of_mem p l a hal hp
        exact ⟨j + 1, by simp [hpx, List.findIdx?_succ, hj]⟩

theorem getD_mem_of_lt {α : Type _} (l : List α) (d : α) (i : Nat)
    (h : i < l.length) : l.getD i d ∈ l := by
  rw [List.getD_eq_getElem l d h]
  exact List.getElem_mem h

/-! ## Theorems -/

/-- The editor state after the overlapping-load race: `load("A")` and
`load("B")` are both in flight from the initial state; B's response
arrives first and commits (B becomes the active selection); then A's
stale response arrives and is resolved. -/
def staleLoadFinal : EditorState :=
  (loadFile (loadFile initEditorState "B" (.success "B" "contentB")).1
    "A" (.success "A" "contentA")).1

/-- C1: stale-load suppression fails in the code.  When A's stale
response resolves after B is active, `loadFile` commits it
unconditionally — there is no ActiveSelection check in the resolving
callback — so the buffer ends with A's content, not B's, and the active
tab is switched back to A. -/
theorem c1_stale_load_committed :
    staleLoadFinal.content = "contentA" ∧
      staleLoadFinal.content ≠ "contentB" ∧
      staleLoadFinal.activeTab = some "A" ∧
      staleLoadFinal.currentFile = some "A" := by
  refine ⟨rfl, by decide, rfl, rfl⟩

/-- C2 counterexample: the claim that at most one `list_directory`
request is issued per directory across expand/collapse sequences fails:
`collapseDirectory` removes the children container from the DOM, so the
sequence expand("d"), collapse("d"), expand("d") issues two requests for
"d". -/
theorem c2_collapse_discards_cache_cex :
    letI run := runExplorer initExplorerState [.expand "d", .collapse "d", .expand "d"]
    run.2 = ["d", "d"] ∧ ¬ run.2.length ≤ 1 := by
  refine ⟨rfl, by decide⟩

/-- C3: a timer started by an earlier publish does hide a newer
notification before its interval elapses.  Publish m1 at time 0, publish
m2 at time 2: at time 3 the hide scheduled by m1's publish fires
(`showNotification` never cancels the pending timeout), so m2 — neither
dismissed nor pre-empted — is hidden only 1 time unit after its publish
instead of staying visible for the full 3. -/
theorem c3_stale_timer_hides_new_notification :
    (runNotif initNotifWorld
        [.publish "m1" "success", .tick, .tick,
         .publish "m2" "info", .tick]).time = 3 ∧
      (runNotif initNotifWorld
        [.publish "m1" "success", .tick, .tick,
         .publish "m2" "info", .tick]).state.message = "m2" ∧
      (runNotif initNotifWorld
        [.publish "m1" "success", .tick, .tick,
         .publish "m2" "info", .tick]).state.shown = false := by
  refine ⟨rfl, rfl, rfl⟩

/-- C6 counterexample: closing the sole remaining tab does not make
ActiveSelection empty.  After opening "/a" (sole, unpinned, active tab),
`closeTab("/a")` removes the tab and calls `clearEditor`, which clears
the buffer (content empty, no current file, dirty=false) but never
resets `activeTab`: the selection still holds "/a" while the tab
collection is empty. -/
theorem c6_sole_close_keeps_selection_cex :
    letI s := (loadFile initEditorState "/a" (.success "/a" "x")).1
    letI c := (closeTab s "/a" .thrown).1
    c.openTabs = [] ∧ c.activeTab = some "/a" ∧ ¬ c.activeTab = none ∧
      c.currentFile = none ∧ c.content = "" ∧ c.isModified = false := by
  refine ⟨rfl, rfl, by decide, rfl, rfl, rfl⟩

/-- C7: the invariant "a non-empty ActiveSelection names an existing
Tab" is violated by the close path.  With tabs "/a" and "/b" open and
"/b" active, `closeTab("/b")` removes the tab and triggers a load of
"/a"; when that load fails, the resolving callback leaves the state
untouched, so `activeTab` still holds "/b" although no tab with path
"/b" remains. -/
theorem c7_dangling_selection_after_failed_load :
    (closeTab
        (loadFile (loadFile initEditorState "/a" (.success "/a" "x")).1
          "/b" (.success "/b" "y")).1
        "/b" (.failure "boom")).1.activeTab = some "/b" ∧
      (∀ t ∈ (closeTab
          (loadFile (loadFile initEditorState "/a" (.success "/a" "x")).1
            "/b" (.success "/b" "y")).1
          "/b" (.failure "boom")).1.openTabs, t.path ≠ "/b") ∧
      (closeTab
          (loadFile (loadFile initEditorState "/a" (.success "/a" "x")).1
            "/b" (.success "/b" "y")).1
          "/b" (.failure "boom")).1.openTabs ≠ [] := by
  refine ⟨rfl, by decide, by decide⟩

/-- C4: tab uniqueness under `open`.  If at most one tab carries each
path, then after `addOrActivateTab` this still holds; the opened path
becomes active; opening an existing path leaves the tab list unchanged
(no duplicate); opening a new path appends one fresh unpinned tab at the
end of the tab list. -/
theorem c4_open_unique_append_active (s : EditorState) (p : String)
    (hU : ∀ q, countPath s.openTabs q ≤ 1) :
    (∀ q, countPath (addOrActivateTab s p).openTabs q ≤ 1) ∧
    (addOrActivateTab s p).activeTab = some p ∧
    (s.openTabs.any (fun t => t.path == p) = true →
       (addOrActivateTab s p).openTabs = s.openTabs) ∧
    (s.openTabs.any (fun t => t.path == p) = false →
       (addOrActivateTab s p).openTabs =
         s.openTabs ++ [⟨p, lastName p, false, false⟩]) := by
  by_cases hany : s.openTabs.any (fun t => t.path == p) = true
  · refine ⟨?_, ?_, ?_, ?_⟩
    · intro q
      simpa [addOrActivateTab, hany] using hU q
    · simp [addOrActivateTab, hany]
    · intro _
      simp [addOrActivateTab, hany]
    · intro hfalse
      rw [hany] at hfalse
      exact Bool.noConfusion hfalse
  · have hany' : s.openTabs.any (fun t => t.path == p) = false :=
      Bool.eq_false_iff.mpr hany
    have hzero : countPath s.openTabs p = 0 :=
      countPath_eq_zero_of_not_any _ _ hany'
    refine ⟨?_, ?_, ?_, ?_⟩
    · intro q
      have hsplit :
          countPath (addOrActivateTab s p).openTabs q =
            countPath s.openTabs q +
              countPath [⟨p, lastName p, false, false⟩] q := by
        simp only [addOrActivateTab, hany, if_false]
        exact countPath_append _ _ q
      rw [hsplit]
      by_cases hqp : p = q
      · subst hqp
        have : countPath [(⟨p, lastName p, false, false⟩ : Tab)] p ≤ 1 := by
          simp [countPath]
        omega
      · have hne : (p == q) = false := by
          simp only [beq_eq_false_iff_ne, ne_eq]
          exact hqp
        have : countPath [(⟨p, lastName p, false, false⟩ : Tab)] q = 0 := by
          simp [countPath, List.filter, hne]
        rw [this]
        have := hU q
        omega
    · simp [addOrActivateTab, hany]
    · intro htrue
      exact absurd htrue hany
    · intro _
      simp [addOrActivateTab, hany]

/-- C4 witness: opening a fresh path from the initial state, then
re-opening it, keeps every per-path tab count at most 1, activates the
path, and the first open appended exactly one unpinned tab. -/
theorem c4_witness :
    (∀ q, countPath (addOrActivateTab initEditorState "/proj/a.lvl").openTabs q ≤ 1) ∧
    (addOrActivateTab initEditorState "/proj/a.lvl").activeTab = some "/proj/a.lvl" ∧
    (addOrActivateTab initEditorState "/proj/a.lvl").openTabs =
      [⟨"/proj/a.lvl", "a.lvl", false, false⟩] := by
  have h := c4_open_unique_append_active initEditorState "/proj/a.lvl"
    (fun q => by simp [countPath, initEditorState])
  refine ⟨h.1, h.2.1, ?_⟩
  have happ := h.2.2.2 (by decide)
  rw [happ]
  rfl

/-- C5: closing a pinned tab is a silent no-op.  If some tab in the
collection has the requested path and is pinned, and at most one tab
carries each path (value-level uniqueness), then `closeTab` returns the
state unchanged — same tab list, same order, same active selection — and
emits nothing. -/
theorem c5_close_pinned_noop (s : EditorState) (p : String) (resp : LoadResult)
    (t : Tab) (hmem : t ∈ s.openTabs) (hpath : t.path = p)
    (hpin : t.pinned = true)
    (hU : ∀ t1 ∈ s.openTabs, ∀ t2 ∈ s.openTabs, t1.path = t2.path → t1 = t2) :
    closeTab s p resp = (s, []) := by
  have hpred : (fun u => u.path == p) t = true := by simp [hpath]
  obtain ⟨i, hi⟩ :=
    findIdx?_isSome_of_mem (fun u => u.path == p) s.openTabs t hmem hpred
  have hlt := findIdx?_some_lt _ s.openTabs i hi
  have hp2 := findIdx?_some_pred _ dummyTab s.openTabs i hi
  have hmem2 : s.openTabs.getD i dummyTab ∈ s.openTabs :=
    getD_mem_of_lt s.openTabs dummyTab i hlt
  have hpath2 : (s.openTabs.getD i dummyTab).path = t.path := by
    have : (s.openTabs.getD i dummyTab).path = p := by simpa using hp2
    rw [this, hpath]
  have heq : s.openTabs.getD i dummyTab = t := hU _ hmem2 _ hmem hpath2
  have hpin2 : (s.openTabs.getD i dummyTab).pinned = true := by rw [heq]; exact hpin
  have hpin3 : (s.openTabs[i]?.getD dummyTab).pinned = true := by
    rw [← List.getD_eq_getElem?_getD]
    exact hpin2
  simp [closeTab, hi, hpin3]

/-- C5 witness: with a single pinned tab "/a" open and active, closing
"/a" leaves the state exactly unchanged. -/
theorem c5_witness :
    letI s : EditorState :=
      { currentFile := some "/a", content := "x", isModified := false,
        isSaving := false, editorValue := "x",
        openTabs := [⟨"/a", "a", false, true⟩], activeTab := some "/a" }
    closeTab s "/a" .thrown = (s, []) := by
  exact c5_close_pinned_noop _ "/a" .thrown ⟨"/a", "a", false, true⟩
    (by decide) rfl rfl
    (by intro t1 h1 t2 h2 _
        simp at h1 h2
        rw [h1, h2])

/-- C8: save mutual exclusion.  Invoking `saveCurrentFile` while
`isSaving = true` returns failure, issues no request to the backend,
and leaves the whole editor state (content, dirty flag, `isSaving`)
unchanged — regardless of what the backend would have answered. -/
theorem c8_save_mutual_exclusion (s : EditorState) (o : SaveOutcome)
    (h : s.isSaving = true) :
    (saveCurrentFile s o).state = s ∧ (saveCurrentFile s o).ok = false ∧
      (saveCurrentFile s o).requested = false := by
  match hc : s.currentFile with
  | none => simp [saveCurrentFile, hc]
  | some f => simp [saveCurrentFile, hc, h]

/-- C8 witness: a concrete state with a save in flight rejects a second
save without touching the state or the backend. -/
theorem c8_witness :
    letI s : EditorState :=
      { currentFile := some "/a", content := "x", isModified := true,
        isSaving := true, editorValue := "y",
        openTabs := [⟨"/a", "a", true, false⟩], activeTab := some "/a" }
    (saveCurrentFile s .success).state = s ∧
      (saveCurrentFile s .success).ok = false ∧
      (saveCurrentFile s .success).requested = false := by
  exact c8_save_mutual_exclusion _ .success rfl

/-- C9: failure rollback.  A load whose response is a failure (or whose
promise is rejected) leaves the editor state completely untouched — the
prior buffer is intact and no tab is created or activated — and emits an
error notification.  A save whose backend call fails or throws leaves
content, dirty flag, tabs and selection unchanged (in particular a dirty
buffer stays dirty), returns false, and emits an error notification. -/
theorem c9_failure_rollback :
    (∀ (s : EditorState) (p e : String),
        (loadFile s p (.failure e)).1 = s ∧
          ∃ n ∈ (loadFile s p (.failure e)).2, n.ntype = "error") ∧
    (∀ (s : EditorState) (p : String),
        (loadFile s p .thrown).1 = s ∧
          ∃ n ∈ (loadFile s p .thrown).2, n.ntype = "error") ∧
    (∀ (s : EditorState) (f : String) (o : SaveOutcome),
        s.currentFile = some f → s.isSaving = false →
        (o = .success → False) →
        (saveCurrentFile s o).state.content = s.content ∧
          (saveCurrentFile s o).state.isModified = s.isModified ∧
          (saveCurrentFile s o).state.editorValue = s.editorValue ∧
          (saveCurrentFile s o).state.openTabs = s.openTabs ∧
          (saveCurrentFile s o).state.activeTab = s.activeTab ∧
          (saveCurrentFile s o).state.currentFile = s.currentFile ∧
          (saveCurrentFile s o).ok = false ∧
          ∃ n ∈ (saveCurrentFile s o).notifs, n.ntype = "error") := by
  refine ⟨?_, ?_, ?_⟩
  · intro s p e
    exact ⟨rfl, ⟨loadErrMsg e, "error"⟩, by simp [loadFile], rfl⟩
  · intro s p
    exact ⟨rfl, ⟨"Failed to load file", "error"⟩, by simp [loadFile], rfl⟩
  · intro s f o hf hs hnos
    match o with
    | .success => exact absurd rfl hnos
    | .failure e =>
        refine ⟨?_, ?_, ?_, ?_, ?_, ?_, ?_, ⟨saveErrMsg e, "error"⟩, ?_, rfl⟩ <;>
          simp [saveCurrentFile, updateActiveTab, hf, hs]
    | .thrown =>
        refine ⟨?_, ?_, ?_, ?_, ?_, ?_, ?_, ⟨"Failed to save file", "error"⟩, ?_, rfl⟩ <;>
          simp [saveCurrentFile, updateActiveTab, hf, hs]

/-- C9 witness: concrete failed load and failed save.  A failed load of
"/b" from a dirty one-tab state changes nothing and notifies an error;
a failed save from the same state keeps it dirty with content intact. -/
theorem c9_witness :
    letI s : EditorState :=
      { currentFile := some "/a", content := "x", isModified := true,
        isSaving := false, editorValue := "y",
        openTabs := [⟨"/a", "a", true, false⟩], activeTab := some "/a" }
    ((loadFile s "/b" (.failure "nope")).1 = s ∧
        ∃ n ∈ (loadFile s "/b" (.failure "nope")).2, n.ntype = "error") ∧
      ((saveCurrentFile s (.failure "disk full")).state.isModified = true ∧
        (saveCurrentFile s (.failure "disk full")).state.content = "x" ∧
        (saveCurrentFile s (.failure "disk full")).ok = false) := by
  refine ⟨c9_failure_rollback.1 _ "/b" "nope", ?_⟩
  have h := c9_failure_rollback.2.2
    { currentFile := some "/a", content := "x", isModified := true,
      isSaving := false, editorValue := "y",
      openTabs := [⟨"/a", "a", true, false⟩], activeTab := some "/a" }
    "/a" (.failure "disk full") rfl rfl
    (fun hcontra => SaveOutcome.noConfusion hcontra)
  exact ⟨h.2.1, h.1, h.2.2.2.2.2.2.1⟩

/-- C10: the `finally` block resets the save guard.  For any invocation
of `saveCurrentFile` that actually starts (a file is open and no save is
in flight), after completion — success, backend-reported failure, or
thrown error — `isSaving` is false again and the current file is still
set, so a subsequent save attempt passes the guard and issues a new
backend request. -/
theorem c10_save_guard_always_reset (s : EditorState) (f : String)
    (o o' : SaveOutcome) (hf : s.currentFile = some f)
    (hs : s.isSaving = false) :
    (saveCurrentFile s o).state.isSaving = false ∧
      (saveCurrentFile s o).state.currentFile = some f ∧
      (saveCurrentFile (saveCurrentFile s o).state o').requested = true := by
  match o with
  | .success =>
      refine ⟨by simp [saveCurrentFile, updateActiveTab, hf, hs], by simp [saveCurrentFile, updateActiveTab, hf, hs], ?_⟩
      match o' with
      | .success => simp [saveCurrentFile, updateActiveTab, hf, hs]
      | .failure e => simp [saveCurrentFile, updateActiveTab, hf, hs]
      | .thrown => simp [saveCurrentFile, updateActiveTab, hf, hs]
  | .failure e =>
      refine ⟨by simp [saveCurrentFile, updateActiveTab, hf, hs], by simp [saveCurrentFile, updateActiveTab, hf, hs], ?_⟩
      match o' with
      | .success => simp [saveCurrentFile, updateActiveTab, hf, hs]
      | .failure e' => simp [saveCurrentFile, updateActiveTab, hf, hs]
      | .thrown => simp [saveCurrentFile, updateActiveTab, hf, hs]
  | .thrown =>
      refine ⟨by simp [saveCurrentFile, updateActiveTab, hf, hs], by simp [saveCurrentFile, updateActiveTab, hf, hs], ?_⟩
      match o' with
      | .success => simp [saveCurrentFile, updateActiveTab, hf, hs]
      | .failure e' => simp [saveCurrentFile, updateActiveTab, hf, hs]
      | .thrown => simp [saveCurrentFile, updateActiveTab, hf, hs]

/-- C10 witness: after a thrown save from a concrete dirty state, the
guard is false, the file is still current, and the retried save issues a
request. -/
theorem c10_witness :
    letI s : EditorState :=
      { currentFile := some "/a", content := "x", isModified := true,
        isSaving := false, editorValue := "y",
        openTabs := [⟨"/a", "a", true, false⟩], activeTab := some "/a" }
    (saveCurrentFile s .thrown).state.isSaving = false ∧
      (saveCurrentFile s .thrown).state.currentFile = some "/a" ∧
      (saveCurrentFile (saveCurrentFile s .thrown).state .success).requested = true := by
  exact c10_save_guard_always_reset _ "/a" .thrown .success rfl rfl

/-- C2 amended: each directory is fetched at most once per *contiguous
expanded lifetime*, not per cache lifetime.  After an expand the children
container exists; an expand that finds the container issues no request
and keeps the DOM cache; any run of consecutive expands issues at most
one request (zero if the container already exists); but collapse removes
the container, so the next expand re-issues a `list_directory` request. -/
theorem c2_fetch_once_per_expanded_lifetime :
    (∀ (s : ExplorerState) (p : String),
        p ∈ (expandDirectory s p).1.domChildren) ∧
    (∀ (s : ExplorerState) (p : String), p ∈ s.domChildren →
        (expandDirectory s p).2 = [] ∧
        (expandDirectory s p).1.domChildren = s.domChildren) ∧
    (∀ (s : ExplorerState) (p : String) (n : Nat),
        (runExplorer s (List.replicate n (.expand p))).2.length ≤
          if p ∈ s.domChildren then 0 else 1) ∧
    (∀ (s : ExplorerState) (p : String),
        (expandDirectory (collapseDirectory s p) p).2 = [p]) := by
  have hcons : ∀ (s : ExplorerState) (op : EOp) (ops : List EOp),
      runExplorer s (op :: ops) =
        ((runExplorer (explorerStep s op).1 ops).1,
         (explorerStep s op).2 ++ (runExplorer (explorerStep s op).1 ops).2) := by
    intro s op ops
    rcases hstep : explorerStep s op with ⟨s1, reqs⟩
    rcases hrest : runExplorer s1 ops with ⟨s2, reqs'⟩
    simp [runExplorer, hstep, hrest]
  have hstep : ∀ (s : ExplorerState) (p : String),
      p ∈ (expandDirectory s p).1.domChildren := by
    intro s p
    by_cases h : p ∈ s.domChildren <;> simp [expandDirectory, h]
  have hrun : ∀ (n : Nat) (s : ExplorerState) (p : String),
      (runExplorer s (List.replicate n (.expand p))).2.length ≤
        if p ∈ s.domChildren then 0 else 1 := by
    intro n
    induction n with
    | zero =>
        intro s p
        simp only [List.replicate_zero, runExplorer, List.length_nil]
        exact Nat.zero_le _
    | succ m ih =>
        intro s p
        rw [List.replicate_succ, hcons]
        by_cases h : p ∈ s.domChildren
        · have hexp : expandDirectory s p =
              ({ s with expandedDirs := setAdd s.expandedDirs p }, []) := by
            simp [expandDirectory, h]
          have hnext := ih { s with expandedDirs := setAdd s.expandedDirs p } p
          simp only [h, if_pos] at hnext
          simp only [explorerStep, hexp, h, if_pos, List.nil_append]
          exact le_trans hnext (by simp)
        · have hexp : expandDirectory s p =
              (⟨setAdd s.expandedDirs p, s.domChildren ++ [p]⟩, [p]) := by
            simp [expandDirectory, h]
          have hnext := ih ⟨setAdd s.expandedDirs p, s.domChildren ++ [p]⟩ p
          have hmem : p ∈ s.domChildren ++ [p] := by simp
          rw [if_pos hmem] at hnext
          have hzero :
              (runExplorer ⟨setAdd s.expandedDirs p, s.domChildren ++ [p]⟩
                (List.replicate m (.expand p))).2.length = 0 :=
            Nat.le_zero.mp hnext
          simp only [explorerStep, hexp, h, if_neg, List.length_append, hzero]
          simp [h]
  refine ⟨hstep, ?_, fun s p n => hrun n s p, ?_⟩
  · intro s p h
    constructor <;> simp [expandDirectory, h]
  · intro s p
    have hnot : ¬ p ∈ (collapseDirectory s p).domChildren := by
      simp [collapseDirectory]
    simp [expandDirectory, hnot]

/-- C2 amended witness: concretely, the second of two consecutive
expands of "d" is a cache hit; three consecutive expands issue at most
one request; and an expand after a collapse re-issues the request. -/
theorem c2_witness :
    ("d" ∈ (expandDirectory initExplorerState "d").1.domChildren) ∧
    ((expandDirectory (expandDirectory initExplorerState "d").1 "d").2 = []) ∧
    ((runExplorer initExplorerState
        (List.replicate 3 (.expand "d"))).2.length ≤ 1) ∧
    ((expandDirectory
        (collapseDirectory (expandDirectory initExplorerState "d").1 "d")
        "d").2 = ["d"]) := by
  have h := c2_fetch_once_per_expanded_lifetime
  refine ⟨h.1 initExplorerState "d", ?_, ?_, h.2.2.2 _ "d"⟩
  · exact (h.2.1 _ "d" (h.1 initExplorerState "d")).1
  · have := h.2.2.1 initExplorerState "d" 3
    simpa [initExplorerState] using this

/-- C6 amended: closing the active unpinned tab at index i with other
tabs remaining triggers a load of the tab that sits at index
`max(0, i - 1)` after removal; when that load succeeds, that tab becomes
active and the final tab list is the removed list with the newly active
tab's modified flag cleared (mirrored from the freshly loaded, clean
buffer by `updateActiveTab`).  Closing the sole remaining tab clears the
buffer (content empty, no current file, dirty=false) but leaves
ActiveSelection still holding the closed path rather than empty. -/
theorem c6_close_active_adjacency :
    (∀ (s : EditorState) (p c : String) (i : Nat),
        s.openTabs.findIdx? (fun t => t.path == p) = some i →
        (s.openTabs.getD i dummyTab).pinned = false →
        s.activeTab = some p →
        0 < (s.openTabs.eraseIdx i).length →
        ((s.openTabs.eraseIdx i).getD (i - 1) dummyTab).path ≠ p →
        (closeTab s p
            (.success ((s.openTabs.eraseIdx i).getD (i - 1) dummyTab).path c)).1.activeTab =
          some ((s.openTabs.eraseIdx i).getD (i - 1) dummyTab).path ∧
        (closeTab s p
            (.success ((s.openTabs.eraseIdx i).getD (i - 1) dummyTab).path c)).1.openTabs =
          setModifiedFirst (s.openTabs.eraseIdx i)
            (some ((s.openTabs.eraseIdx i).getD (i - 1) dummyTab).path) false ∧
        (closeTab s p
            (.success ((s.openTabs.eraseIdx i).getD (i - 1) dummyTab).path c)).1.content = c ∧
        (closeTab s p
            (.success ((s.openTabs.eraseIdx i).getD (i - 1) dummyTab).path c)).1.currentFile =
          some ((s.openTabs.eraseIdx i).getD (i - 1) dummyTab).path) ∧
    (∀ (s : EditorState) (p : String) (t : Tab) (resp : LoadResult),
        s.openTabs = [t] → t.path = p → t.pinned = false →
        s.activeTab = some p →
        (closeTab s p resp).1.openTabs = [] ∧
        (closeTab s p resp).1.activeTab = some p ∧
        (closeTab s p resp).1.currentFile = none ∧
        (closeTab s p resp).1.content = "" ∧
        (closeTab s p resp).1.isModified = false) := by
  constructor
  · intro s p c i hfind hpin hact hlen hqp
    have hlt : i < s.openTabs.length :=
      findIdx?_some_lt (fun t => t.path == p) s.openTabs i hfind
    have hlen' : (s.openTabs.eraseIdx i).length = s.openTabs.length - 1 := by
      simp [List.length_eraseIdx, hlt]
    have hidx : i - 1 < (s.openTabs.eraseIdx i).length := by omega
    have hmemq : (s.openTabs.eraseIdx i).getD (i - 1) dummyTab ∈
        s.openTabs.eraseIdx i :=
      getD_mem_of_lt _ dummyTab (i - 1) hidx
    have hany : (s.openTabs.eraseIdx i).any
        (fun t => t.path == ((s.openTabs.eraseIdx i).getD (i - 1) dummyTab).path) = true :=
      List.any_eq_true.mpr ⟨_, hmemq, by simp⟩
    have hpin' : (s.openTabs[i]?.getD dummyTab).pinned = false := by
      rw [← List.getD_eq_getElem?_getD]
      exact hpin
    have hq' : ((s.openTabs.eraseIdx i)[i - 1]?.getD dummyTab).path ≠ p := by
      rw [← List.getD_eq_getElem?_getD]
      exact hqp
    have hstep : closeTab s p
        (.success ((s.openTabs.eraseIdx i).getD (i - 1) dummyTab).path c) =
        switchToTab { s with openTabs := s.openTabs.eraseIdx i }
          ((s.openTabs.eraseIdx i).getD (i - 1) dummyTab).path
          (.success ((s.openTabs.eraseIdx i).getD (i - 1) dummyTab).path c) := by
      simp [closeTab, hfind, hpin', hact, hlen]
    rw [hstep]
    have hswitch : switchToTab { s with openTabs := s.openTabs.eraseIdx i }
        ((s.openTabs.eraseIdx i).getD (i - 1) dummyTab).path
        (.success ((s.openTabs.eraseIdx i).getD (i - 1) dummyTab).path c) =
        (loadFileContent { s with openTabs := s.openTabs.eraseIdx i }
           ((s.openTabs.eraseIdx i).getD (i - 1) dummyTab).path c,
         [⟨"Opened " ++ lastName ((s.openTabs.eraseIdx i).getD (i - 1) dummyTab).path,
           "success"⟩]) := by
      simp [switchToTab, hact, hq', loadFile]
    rw [hswitch]
    have hmemq' : (s.openTabs.eraseIdx i)[i - 1]?.getD dummyTab ∈
        s.openTabs.eraseIdx i := by
      rw [← List.getD_eq_getElem?_getD]
      exact hmemq
    have hex : ∃ x ∈ s.openTabs.eraseIdx i,
        x.path = ((s.openTabs.eraseIdx i)[i - 1]?.getD dummyTab).path :=
      ⟨_, hmemq', rfl⟩
    simp [loadFileContent, addOrActivateTab, hex, updateActiveTab]
  · intro s p t resp htabs hpath hpin hact
    have hfind : s.openTabs.findIdx? (fun u => u.path == p) = some 0 := by
      rw [htabs]
      simp [List.findIdx?_cons, hpath]
    have hpin' : (s.openTabs[0]?.getD dummyTab).pinned = false := by
      rw [htabs]
      simpa using hpin
    have herase : s.openTabs.eraseIdx 0 = [] := by rw [htabs]; rfl
    simp [closeTab, hfind, hpin', herase, hact, clearEditor]

/-- C6 witness: with tabs "/a" (dirty, modified=true) and "/b" open and
"/b" active at index 1, closing "/b" with a successful follow-up load
makes "/a" (index 0 after removal) active and clears its modified flag;
and closing a sole remaining tab "/c" clears the buffer while the
selection still holds "/c". -/
theorem c6_witness :
    letI s2 : EditorState :=
      { currentFile := some "/b", content := "y", isModified := false,
        isSaving := false, editorValue := "y",
        openTabs := [⟨"/a", "a", true, false⟩, ⟨"/b", "b", false, false⟩],
        activeTab := some "/b" }
    letI sole : EditorState :=
      { currentFile := some "/c", content := "z", isModified := false,
        isSaving := false, editorValue := "z",
        openTabs := [⟨"/c", "c", false, false⟩], activeTab := some "/c" }
    ((closeTab s2 "/b" (.success "/a" "x2")).1.activeTab = some "/a" ∧
      (closeTab s2 "/b" (.success "/a" "x2")).1.openTabs =
        [⟨"/a", "a", false, false⟩] ∧
      (closeTab s2 "/b" (.success "/a" "x2")).1.content = "x2") ∧
    ((closeTab sole "/c" .thrown).1.openTabs = [] ∧
      (closeTab sole "/c" .thrown).1.activeTab = some "/c" ∧
      (closeTab sole "/c" .thrown).1.currentFile = none) := by
  constructor
  · have h := c6_close_active_adjacency.1
      { currentFile := some "/b", content := "y", isModified := false,
        isSaving := false, editorValue := "y",
        openTabs := [⟨"/a", "a", true, false⟩, ⟨"/b", "b", false, false⟩],
        activeTab := some "/b" }
      "/b" "x2" 1 (by decide) (by decide) (by decide) (by decide) (by decide)
    exact ⟨h.1, h.2.1.trans (by decide), h.2.2.1⟩
  · have h := c6_close_active_adjacency.2
      { currentFile := some "/c", content := "z", isModified := false,
        isSaving := false, editorValue := "z",
        openTabs := [⟨"/c", "c", false, false⟩], activeTab := some "/c" }
      "/c" ⟨"/c", "c", false, false⟩ .thrown rfl rfl rfl rfl
    exact ⟨h.1, h.2.1, h.2.2.1⟩

end IDE
